import Mathlib

/-!
Verification of the okta-terraform-demo-template operational scripts.

Shallow embedding of the Python sources:
* `backup-restore/state-based/scripts/restore_state.py`
  (`restore_s3_state_version`, `run_terraform_apply`)
* `backup-restore/resource-based/scripts/create_backup_manifest.py`
  (`count_csv_rows`, `count_json_items`, `get_file_info`, `create_manifest`)
* `scripts/copy_grants_between_orgs.py`
  (`OktaGovernanceClient._make_request`, `create_grant`, `import_grants`)
* `scripts/copy_group_memberships.py` (`import_memberships`, `main`)
* `scripts/export_users_to_csv.py` (`export_users_to_csv` CSV layout)

External services (the S3 versioned object store, the Okta REST endpoints,
the terraform subprocess) are modelled as explicit state / response
functions; machine behaviour of the scripts themselves is translated
line by line from the source.
-/

namespace OktaDemo

/-! ## Python string primitives

Character-list implementations of the Python string operations the
scripts use (`startswith`, `endswith`, `replace`, `lower`, membership),
so that every embedded definition evaluates inside the kernel. -/

/-- Python `s.startswith(p)`. -/
def str_startswith (s p : String) : Bool :=
  p.data.isPrefixOf s.data

/-- Python `s.endswith(p)`. -/
def str_endswith (s p : String) : Bool :=
  p.data.isSuffixOf s.data

/-- Replace every non-overlapping occurrence of `pat` (left to right) by
`rep`, as Python `s.replace(pat, rep)` does for a non-empty pattern. -/
def replaceChars (pat rep : List Char) : List Char → List Char
  | [] => []
  | c :: rest =>
      if pat ≠ [] ∧ pat.isPrefixOf (c :: rest) then
        rep ++ replaceChars pat rep (rest.drop (pat.length - 1))
      else
        c :: replaceChars pat rep rest
  termination_by l => l.length
  decreasing_by
    · simp only [List.length_drop, List.length_cons]; omega
    · simp only [List.length_cons]; omega

/-- Python `s.replace(pat, rep)`. -/
def str_replace (s pat rep : String) : String :=
  ⟨replaceChars pat.data rep.data s.data⟩

/-- Python `s.lower()`. -/
def str_lower (s : String) : String :=
  ⟨s.data.map Char.toLower⟩

/-- Python `c in s` for a single character. -/
def str_contains (s : String) (c : Char) : Bool :=
  s.data.contains c

/-! ## Versioned object store (S3 with bucket versioning)

A versioned S3 object: every `upload_file` to the key creates a brand-new
version with a fresh version id which becomes the current (latest) one;
old versions are retained.  Version ids are modelled as naturals issued
from a counter `nextId`; the history list is newest-first. -/

structure S3Version where
  vid : Nat
  content : List Nat
  deriving DecidableEq, Repr

structure S3Bucket where
  versions : List S3Version
  nextId : Nat
  deriving DecidableEq, Repr

/-- Metadata-only read of the current version id (`s3.head_object`),
as used by `get_s3_state_version`. `none` when the object does not exist. -/
def head_object (b : S3Bucket) : Option Nat :=
  b.versions.head?.map (·.vid)

/-- `s3.download_file(..., ExtraArgs={"VersionId": v})`: fetch the bytes
stored under version id `v`, if that version exists. -/
def get_object_version (b : S3Bucket) (v : Nat) : Option (List Nat) :=
  (b.versions.find? (fun ver => ver.vid = v)).map (·.content)

/-- `s3.upload_file`: store `content` as a brand-new current version with a
fresh version id; all previous versions are preserved. -/
def put_object (b : S3Bucket) (content : List Nat) : S3Bucket :=
  ⟨⟨b.nextId, content⟩ :: b.versions, b.nextId + 1⟩

/-- Store well-formedness: every issued version id is below the counter,
so the next id issued is fresh. -/
def S3WF (b : S3Bucket) : Prop :=
  ∀ v ∈ b.versions, v.vid < b.nextId

instance (b : S3Bucket) : Decidable (S3WF b) := by
  unfold S3WF; infer_instance

/-- Result dictionary of `restore_s3_state_version` (`"status"` key plus the
branch-specific fields of the returned dict). -/
inductive RestoreResult
  | alreadyCurrent (version_id : Nat)
  | dryRun (would_restore : Nat)
  | restored (previous_version : Option Nat) (restored_from : Nat)
      (new_version : Option Nat)
  | downloadError
  deriving DecidableEq, Repr

/-- `restore_s3_state_version` from
`backup-restore/state-based/scripts/restore_state.py` (lines 111-174):
compare the current version id with the target; if equal return
`already_current` without writing; in dry-run mode return `dry_run`
without writing; otherwise download the bytes at the target version and
upload them back as a brand-new current version.  A download failure
(target version absent) propagates as an error without writing. -/
def restore_s3_state_version (b : S3Bucket) (target : Nat) (dry_run : Bool) :
    RestoreResult × S3Bucket :=
  let current := head_object b
  if current = some target then
    (.alreadyCurrent target, b)
  else if dry_run then
    (.dryRun target, b)
  else
    match get_object_version b target with
    | none => (.downloadError, b)
    | some content =>
        let b2 := put_object b content
        (.restored current target (head_object b2), b2)

/-! ## Terraform orchestration (`run_terraform_apply`)

The terraform binary is the external environment: an exit code per phase.
The observable actions of the function (subprocess invocations and the
deletion of the `restore.tfplan` artifact) are recorded as a trace. -/

structure TfEnv where
  initExit : Nat
  planExit : Nat
  applyExit : Nat
  deriving DecidableEq, Repr

inductive TfEvent
  | initRun
  | planRun
  | applyRun
  | deletePlanFile
  deriving DecidableEq, Repr

/-- The `"status"` field of the dict returned by `run_terraform_apply`. -/
inductive TfStatus
  | init_failed
  | plan_failed
  | dry_run
  | applied
  | apply_failed
  deriving DecidableEq, Repr

/-- `run_terraform_apply` from
`backup-restore/state-based/scripts/restore_state.py` (lines 177-249):
`terraform init`, then `terraform plan -out=restore.tfplan`, each aborting
with its own failure status on a non-zero exit; in dry-run mode the plan
file is deleted and `dry_run` returned; otherwise `terraform apply
restore.tfplan` runs (with `-auto-approve` when requested, which does not
change the control flow), the plan file is deleted, and the status is
`applied` or `apply_failed` by the apply exit code.  A successful
`terraform plan -out=` writes the plan file, so the `os.path.exists`
guards before each `os.unlink` are true on these paths. -/
def run_terraform_apply (env : TfEnv) (dry_run auto_approve : Bool) :
    TfStatus × List TfEvent :=
  let _ := auto_approve
  let ev0 : List TfEvent := [.initRun]
  if env.initExit ≠ 0 then
    (.init_failed, ev0)
  else
    let ev1 := ev0 ++ [.planRun]
    if env.planExit ≠ 0 then
      (.plan_failed, ev1)
    else if dry_run then
      (.dry_run, ev1 ++ [.deletePlanFile])
    else
      let ev2 := ev1 ++ [.applyRun, .deletePlanFile]
      if env.applyExit ≠ 0 then
        (.apply_failed, ev2)
      else
        (.applied, ev2)

/-! ## Rate-limited HTTP client (`_make_request`)

Shared retry loop of `OktaGovernanceClient._make_request`
(`scripts/copy_grants_between_orgs.py` lines 55-72) and
`OktaClient._make_request` (`scripts/export_users_to_csv.py` lines 50-72):
up to `max_retries = 3` attempts; a 429 response triggers a sleep until
the `X-Rate-Limit-Reset` time (fallback: now + 60) plus one second
(clamped below at one second) and a retry; any other response is returned
at once; if all three attempts return 429, the last response is returned.

The transport is a function from attempt index to response; wall-clock
time is an integer that advances exactly by the sleeps the client makes. -/

structure HttpResponse where
  status : Nat
  rateLimitReset : Option Int
  deriving DecidableEq, Repr

/-- `_handle_rate_limit` sleep duration on a 429 response at time `now`:
`max(reset_time - time.time() + 1, 1)` with `reset_time` from the
`X-Rate-Limit-Reset` header, defaulting to `time.time() + 60`. -/
def rate_limit_wait (r : HttpResponse) (now : Int) : Int :=
  max ((r.rateLimitReset.getD (now + 60)) - now + 1) 1

/-- One pass of the `for attempt in range(max_retries)` loop, fuel-indexed.
Returns the response handed back to the caller, the number of requests
issued, and the list of sleep durations performed (in order). -/
def make_request_loop (resp : Nat → HttpResponse) (attempt fuel : Nat)
    (now : Int) : HttpResponse × Nat × List Int :=
  match fuel with
  | 0 => (resp (attempt - 1), 0, [])
  | fuel + 1 =>
      let r := resp attempt
      if r.status = 429 then
        let w := rate_limit_wait r now
        let rest := make_request_loop resp (attempt + 1) fuel (now + w)
        (rest.1, rest.2.1 + 1, w :: rest.2.2)
      else
        (r, 1, [])

/-- `_make_request`: the loop with `max_retries = 3`, starting at attempt 0.
When the fuel runs out (all attempts returned 429) the Python loop falls
through and returns the last `response`, i.e. `resp 2`. -/
def make_request (resp : Nat → HttpResponse) (now : Int) :
    HttpResponse × Nat × List Int :=
  make_request_loop resp 0 3 now

/-! ## Mutating API calls

Trace of mutating remote calls issued by the importers: the grant-creation
POST and the group-assignment PUT.  Read-only GETs are not mutating and
are outside the trace. -/

inductive ApiCall
  | postGrant (bundle_id principal_id principal_type : String)
  | putGroupUser (group_id user_id : String)
  deriving DecidableEq, Repr

/-- `requests.Response.ok`: true for status codes below 400. -/
def http_ok (status : Nat) : Bool := status < 400

/-! ## Grants importer (`scripts/copy_grants_between_orgs.py`) -/

/-- One record of the export file's `grants` list, the fields read by
`import_grants`. -/
structure GrantRecord where
  bundle_name : String
  target_app_name : String
  principal_name : String
  principal_type : String
  deriving DecidableEq, Repr

/-- Target-org view used by `import_grants`: the four name-to-id mappings
built from the target org's fetched resources, plus the transport's
HTTP status for the grant-creation POST. -/
structure GrantOrg where
  bundle_name_to_id : List (String × String)
  group_name_to_id : List (String × String)
  user_name_to_id : List (String × String)
  user_login_to_id : List (String × String)
  grantPostStatus : String → String → String → Nat

/-- `"status"` of the dict returned by `OktaGovernanceClient.create_grant`. -/
inductive GrantCallStatus
  | created
  | exists_
  | dry_run
  | error (code : Nat)
  deriving DecidableEq, Repr

/-- `OktaGovernanceClient.create_grant` (lines 200-226): in dry-run mode
the payload is built and returned without any request; otherwise the POST
is issued and classified: `ok` → created, 409 → already exists, anything
else → error. -/
def create_grant (org : GrantOrg) (bundle_id principal_id principal_type : String)
    (dry_run : Bool) : GrantCallStatus × List ApiCall :=
  if dry_run then
    (.dry_run, [])
  else
    let s := org.grantPostStatus bundle_id principal_id principal_type
    let call := [ApiCall.postGrant bundle_id principal_id principal_type]
    if http_ok s then (.created, call)
    else if s = 409 then (.exists_, call)
    else (.error s, call)

/-- The `results` tally of `import_grants`. -/
structure GrantResults where
  created : Nat
  exists_ : Nat
  skipped : Nat
  errors : Nat
  excluded : Nat
  deriving DecidableEq, Repr

/-- Principal resolution of `import_grants` (lines 436-444): a GROUP by
target-group name, a USER first by "first last" name then by login/email,
both lowercased; any other type resolves to nothing. -/
def resolve_principal (org : GrantOrg) (principal_type principal_name : String) :
    Option String :=
  if principal_type = "GROUP" then
    org.group_name_to_id.lookup principal_name
  else if principal_type = "USER" then
    (org.user_name_to_id.lookup (str_lower principal_name)).orElse
      (fun _ => org.user_login_to_id.lookup (str_lower principal_name))
  else
    none

/-- Body of the `for grant in export_data["grants"]` loop of
`import_grants` (lines 415-474): exclusion filter, bundle resolution,
principal resolution, then `create_grant` with the tally update. -/
def import_grant_step (org : GrantOrg) (excluded_apps : List String)
    (dry_run : Bool) (g : GrantRecord) (acc : GrantResults × List ApiCall) :
    GrantResults × List ApiCall :=
  let (res, calls) := acc
  if g.target_app_name ∈ excluded_apps then
    ({ res with excluded := res.excluded + 1 }, calls)
  else
    match org.bundle_name_to_id.lookup g.bundle_name with
    | none => ({ res with skipped := res.skipped + 1 }, calls)
    | some bundle_id =>
        match resolve_principal org g.principal_type g.principal_name with
        | none => ({ res with skipped := res.skipped + 1 }, calls)
        | some principal_id =>
            let (status, newCalls) :=
              create_grant org bundle_id principal_id g.principal_type dry_run
            let res' :=
              match status with
              | .created => { res with created := res.created + 1 }
              | .exists_ => { res with exists_ := res.exists_ + 1 }
              | .dry_run => { res with created := res.created + 1 }
              | .error _ => { res with errors := res.errors + 1 }
            (res', calls ++ newCalls)

/-- `import_grants` grant-processing loop and final tally. -/
def import_grants (org : GrantOrg) (grants : List GrantRecord)
    (excluded_apps : List String) (dry_run : Bool) :
    GrantResults × List ApiCall :=
  grants.foldl (fun acc g => import_grant_step org excluded_apps dry_run g acc)
    (⟨0, 0, 0, 0, 0⟩, [])

/-- Exit code of the grants `import` subcommand (line 489):
`0 if results["errors"] == 0 else 1`. -/
def import_grants_exit (results : GrantResults) : Nat :=
  if results.errors = 0 then 0 else 1

/-! ## Group-memberships importer (`scripts/copy_group_memberships.py`) -/

/-- Target-org view used by `import_memberships`: users indexed by
lowercased email, groups indexed by profile name, and the transport's
HTTP status for the group-assignment PUT (204 on success). -/
structure MemOrg where
  users_by_email : List (String × String)
  groups_by_name : List (String × String)
  putStatus : String → String → Nat

/-- The `stats` tally of `import_memberships`. -/
structure MemStats where
  groups_found : Nat
  groups_missing : Nat
  users_matched : Nat
  users_missing : Nat
  assignments_made : Nat
  assignments_failed : Nat
  deriving DecidableEq, Repr

/-- Inner `for email in member_emails` loop of `import_memberships`
(lines 273-290): match by lowercased email; a miss is tallied and skipped;
on a match, outside dry-run, `add_user_to_group` issues the PUT and
success is `status == 204`. -/
def import_member_step (org : MemOrg) (group_id : String) (dry_run : Bool)
    (email : String) (acc : MemStats × List ApiCall) : MemStats × List ApiCall :=
  let (st, calls) := acc
  match org.users_by_email.lookup (str_lower email) with
  | none => ({ st with users_missing := st.users_missing + 1 }, calls)
  | some user_id =>
      let st := { st with users_matched := st.users_matched + 1 }
      if dry_run then (st, calls)
      else
        let ok := org.putStatus group_id user_id = 204
        let st' :=
          if ok then { st with assignments_made := st.assignments_made + 1 }
          else { st with assignments_failed := st.assignments_failed + 1 }
        (st', calls ++ [ApiCall.putGroupUser group_id user_id])

/-- Outer loop of `import_memberships` (lines 259-296) over the export's
`memberships` mapping (group name to member-email list, in insertion
order). -/
def import_memberships (org : MemOrg) (memberships : List (String × List String))
    (dry_run : Bool) : MemStats × List ApiCall :=
  memberships.foldl
    (fun acc entry =>
      match org.groups_by_name.lookup entry.1 with
      | none => ({ acc.1 with groups_missing := acc.1.groups_missing + 1 }, acc.2)
      | some group_id =>
          entry.2.foldl (fun a e => import_member_step org group_id dry_run e a)
            ({ acc.1 with groups_found := acc.1.groups_found + 1 }, acc.2))
    (⟨0, 0, 0, 0, 0, 0⟩, [])

/-- Exit path of the memberships `import` subcommand
(`main`, lines 364-372): `import_memberships(...)` is called and `main`
then unconditionally returns 0 — its stats never influence the exit code. -/
def copy_memberships_import_main (org : MemOrg)
    (memberships : List (String × List String)) (dry_run : Bool) : Nat :=
  let _stats := import_memberships org memberships dry_run
  0

/-! ## Manifest builder
(`backup-restore/resource-based/scripts/create_backup_manifest.py`)

A backup-directory file is modelled by its byte content, its formatted
mtime string, and the parsed views the script derives from it:
`csvRows` is what `csv.reader` yields over the file and `jsonVal` what
`json.load` returns.  The SHA-256 of `calculate_file_hash` (a stdlib
primitive) is an explicit function parameter `hash` over the bytes. -/

inductive Json
  | null
  | bool (b : Bool)
  | num (n : Int)
  | str (s : String)
  | arr (items : List Json)
  | obj (fields : List (String × Json))

structure FileData where
  bytes : List Nat
  modified : String
  csvRows : List (List String)
  jsonVal : Json

/-- Loop body of `count_csv_rows` (line 51): `if row and not
row[0].startswith('#') and row[0] != 'email': count += 1`.  `csv.reader`
yields an empty row (falsy) for a blank line. -/
def csv_count_step (count : Nat) (row : List String) : Nat :=
  match row with
  | [] => count
  | f :: _ =>
      if ¬ str_startswith f "#" ∧ f ≠ "email" then count + 1 else count

/-- `count_csv_rows` (lines 44-53): count the parsed rows, skipping a row
when it is empty, when its first field starts with `#`, or when its first
field is the literal `email`. -/
def count_csv_rows (rows : List (List String)) : Nat :=
  rows.foldl csv_count_step 0

/-- `len` of a JSON value as Python computes it on the values this script
counts: length of a list, number of keys of a dict. -/
def Json.size : Json → Nat
  | .arr items => items.length
  | .obj fields => fields.length
  | _ => 0

def Json.lookup (j : Json) (k : String) : Option Json :=
  match j with
  | .obj fields => fields.lookup k
  | _ => none

def Json.isArr : Json → Bool
  | .arr _ => true
  | _ => false

/-- `count_json_items` (lines 56-74): with a key, the length of the list
under that key (1 for a non-list value, 0 when absent); without one, the
length of a top-level list, or the first common collection key found in a
dict (list length, or 1 for a non-list value), or the number of dict keys,
or 1 for any scalar.  The `key in data` membership test is the dict one
(every counted file with a key is a JSON object). -/
def count_json_items (data : Json) (key : Option String) : Nat :=
  match key with
  | some k =>
      match data.lookup k with
      | some v => match v with | .arr items => items.length | _ => 1
      | none => 0
  | none =>
      match data with
      | .arr items => items.length
      | .obj fields =>
          let common := ["users", "groups", "memberships", "applications",
            "rules", "labels", "owners"]
          match common.find? (fun k => (fields.lookup k).isSome) with
          | some k =>
              match fields.lookup k with
              | some (.arr items) => items.length
              | some _ => 1
              | none => 0
          | none => fields.length
      | _ => 1

/-- One entry of the manifest's `files` list. -/
structure FileInfo where
  file : String
  size_bytes : Nat
  modified : String
  sha256 : String
  count : Option Nat
  deriving DecidableEq, Repr

/-- `get_file_info` (lines 77-98): `None` for an absent file; otherwise
size, mtime, hash, plus a record count for `.csv` (CSV row count) and
`.json` (JSON item count under `count_key`) files.  `fs` maps a path
relative to the backup directory to the file found there. -/
def get_file_info (hash : List Nat → String) (fs : String → Option FileData)
    (filename : String) (count_key : Option String) : Option FileInfo :=
  match fs filename with
  | none => none
  | some fd =>
      some
        { file := filename
          size_bytes := fd.bytes.length
          modified := fd.modified
          sha256 := hash fd.bytes
          count :=
            if str_endswith filename ".csv" then some (count_csv_rows fd.csvRows)
            else if str_endswith filename ".json" then
              some (count_json_items fd.jsonVal count_key)
            else none }

/-- One value of the manifest's `resources` mapping. -/
structure ResourceEntry where
  count : Nat
  file : String
  source : String
  deriving DecidableEq, Repr

structure TerraformStateRef where
  s3_bucket : String
  s3_key : String
  version_id : Option String
  deriving DecidableEq, Repr

structure ManifestSummary where
  total_files : Nat
  total_resources : Nat
  deriving DecidableEq, Repr

structure Manifest where
  version : String
  snapshot_id : String
  org_name : String
  created_at : String
  created_by : String
  schedule : String
  backup_dir : String
  resources : List (String × ResourceEntry)
  files : List FileInfo
  terraform_state : Option TerraformStateRef
  summary : ManifestSummary
  deriving Repr

/-- Running accumulator of `create_manifest`'s two file loops: the growing
`files` list and `resources` mapping plus the two totals. -/
structure ManifestAcc where
  files : List FileInfo
  resources : List (String × ResourceEntry)
  total_files : Nat
  total_resources : Nat
  deriving Repr

/-- One iteration of a `create_manifest` file loop (lines 151-163 and
166-178, which differ only in the resource-name derivation and the
`source` tag): an absent file is silently skipped; a present one appends
its descriptor, its resource entry (`count` defaulting to 0), and bumps
both totals. -/
def manifest_file_step (hash : List Nat → String) (fs : String → Option FileData)
    (resource_name : String → String) (source_tag : String)
    (acc : ManifestAcc) (entry : String × Option String) : ManifestAcc :=
  match get_file_info hash fs entry.1 entry.2 with
  | none => acc
  | some info =>
      { files := acc.files ++ [info]
        resources := acc.resources ++
          [(resource_name entry.1, ⟨info.count.getD 0, entry.1, source_tag⟩)]
        total_files := acc.total_files + 1
        total_resources := acc.total_resources + info.count.getD 0 }

def manifest_files_loop (hash : List Nat → String) (fs : String → Option FileData)
    (resource_name : String → String) (source_tag : String)
    (entries : List (String × Option String)) (acc : ManifestAcc) : ManifestAcc :=
  entries.foldl (manifest_file_step hash fs resource_name source_tag) acc

/-- The fixed `backup_files` list (lines 126-134). -/
def backup_files : List (String × Option String) :=
  [("users.csv", none), ("groups.json", some "groups"),
   ("memberships.json", some "memberships"),
   ("app_assignments.json", some "applications"),
   ("owner_mappings.json", none), ("label_mappings.json", some "labels"),
   ("risk_rules.json", some "rules")]

/-- The fixed `oig_files` list (lines 137-142). -/
def oig_files : List (String × Option String) :=
  [("oig/entitlements.json", some "entitlements"),
   ("oig/reviews.json", some "reviews"),
   ("oig/request_sequences.json", some "sequences"),
   ("oig/catalog_entries.json", some "entries")]

/-- Resource-name derivation of the main loop (line 155):
`filename.replace('.csv', '').replace('.json', '')`. -/
def main_resource_name (filename : String) : String :=
  str_replace (str_replace filename ".csv" "") ".json" ""

/-- Resource-name derivation of the OIG loop (line 170):
`filename.replace('oig/', '').replace('.json', '')`. -/
def oig_resource_name (filename : String) : String :=
  str_replace (str_replace filename "oig/" "") ".json" ""

/-- `create_manifest` (lines 101-204).  Environment-derived metadata
(snapshot id, org name, timestamps, actor, schedule) is passed in; the
two file loops run over `backup_files` (source tag `export`) then
`oig_files` (source tag `terraform`); the optional terraform-state
reference is embedded when both bucket and key are supplied. -/
def create_manifest (hash : List Nat → String) (fs : String → Option FileData)
    (snapshot_id org_name created_at created_by schedule backup_dir : String)
    (state_bucket state_key state_version : Option String) : Manifest :=
  let acc0 : ManifestAcc := ⟨[], [], 0, 0⟩
  let acc1 := manifest_files_loop hash fs main_resource_name "export"
    backup_files acc0
  let acc2 := manifest_files_loop hash fs oig_resource_name "terraform"
    oig_files acc1
  { version := "1.0"
    snapshot_id := snapshot_id
    org_name := org_name
    created_at := created_at
    created_by := created_by
    schedule := schedule
    backup_dir := backup_dir
    resources := acc2.resources
    files := acc2.files
    terraform_state :=
      match state_bucket, state_key with
      | some b, some k => some ⟨b, k, state_version⟩
      | _, _ => none
    summary := ⟨acc2.total_files, acc2.total_resources⟩ }

/-! ## User export CSV layout (`scripts/export_users_to_csv.py`)

The write section of `export_users_to_csv` (lines 288-307):
`csv.DictWriter(..., quoting=csv.QUOTE_MINIMAL).writeheader()` first, then
three `f.write` comment lines, then one `writerow` per user.  A
QUOTE_MINIMAL field is quoted (with internal quotes doubled) exactly when
it contains the delimiter, the quote character, or a line break. -/

def csv_needs_quote (s : String) : Bool :=
  str_contains s ',' || str_contains s '"' || str_contains s '\n' ||
    str_contains s '\r'

def csv_field (s : String) : String :=
  if csv_needs_quote s then "\"" ++ str_replace s "\"" "\"\"" ++ "\"" else s

def csv_line (fields : List String) : String :=
  String.intercalate "," (fields.map csv_field)

/-- The `fieldnames` list (lines 292-295). -/
def export_fieldnames : List String :=
  ["email", "first_name", "last_name", "login", "status", "department",
   "title", "manager_email", "groups", "custom_profile_attributes"]

/-- One exported user row, in `fieldnames` order. -/
structure UserRow where
  email : String
  first_name : String
  last_name : String
  login : String
  status : String
  department : String
  title : String
  manager_email : String
  groups : String
  custom_profile_attributes : String
  deriving DecidableEq, Repr

def UserRow.fields (r : UserRow) : List String :=
  [r.email, r.first_name, r.last_name, r.login, r.status, r.department,
   r.title, r.manager_email, r.groups, r.custom_profile_attributes]

/-- Lines of the CSV file written by `export_users_to_csv`: the
`DictWriter` header row, then the three `#` comment lines (org, date,
user count), then the data rows. -/
def export_users_to_csv_lines (org_name export_date : String)
    (rows : List UserRow) : List String :=
  [csv_line export_fieldnames]
    ++ ["# Exported from Okta org: " ++ org_name,
        "# Export date: " ++ export_date,
        "# Total users: " ++ toString rows.length]
    ++ rows.map (fun r => csv_line r.fields)

/-! ## Lemmas about the versioned store -/

theorem get_object_version_mem {b : S3Bucket} {target : Nat} {c : List Nat}
    (h : get_object_version b target = some c) :
    ∃ v ∈ b.versions, v.vid = target ∧ v.content = c := by
  unfold get_object_version at h
  rcases Option.map_eq_some'.mp h with ⟨v, hfind, hc⟩
  refine ⟨v, List.mem_of_find?_eq_some hfind, ?_, hc⟩
  have := List.find?_some hfind
  simpa using this

theorem target_lt_nextId {b : S3Bucket} {target : Nat} {c : List Nat}
    (hwf : S3WF b) (h : get_object_version b target = some c) :
    target < b.nextId := by
  rcases get_object_version_mem h with ⟨v, hv, hvid, _⟩
  exact hvid ▸ hwf v hv

theorem head_object_put (b : S3Bucket) (c : List Nat) :
    head_object (put_object b c) = some b.nextId := rfl

theorem get_object_version_put {b : S3Bucket} {target : Nat} (c : List Nat)
    (hne : b.nextId ≠ target) :
    get_object_version (put_object b c) target = get_object_version b target := by
  unfold get_object_version put_object
  rw [List.find?_cons_of_neg]
  simpa using hne

theorem S3WF_put {b : S3Bucket} (hwf : S3WF b) (c : List Nat) :
    S3WF (put_object b c) := by
  intro v hv
  rcases List.mem_cons.mp hv with h | h
  · subst h; exact Nat.lt_succ_self _
  · exact Nat.lt_succ_of_lt (hwf v h)

theorem restore_step {b : S3Bucket} {target : Nat} {c : List Nat}
    (hget : get_object_version b target = some c)
    (hne : head_object b ≠ some target) :
    restore_s3_state_version b target false =
      (.restored (head_object b) target (some b.nextId), put_object b c) := by
  unfold restore_s3_state_version
  rw [if_neg hne]
  simp [hget, head_object_put]

/-- C1: for a well-formed store holding the target version `V` whose
current version differs from `V`, a non-dry-run restore writes `V`'s
content as a brand-new current version whose id is `V`-free; restoring
again yields the same content under yet another fresh id, so the two
consecutive restores leave the content equal to `V`'s both times while
producing two distinct new version identifiers, both different from `V`. -/
theorem restore_content_idempotent_version_fresh
    (b : S3Bucket) (target : Nat) (c : List Nat)
    (hwf : S3WF b)
    (hget : get_object_version b target = some c)
    (hne : head_object b ≠ some target) :
    (restore_s3_state_version b target false).1 =
        .restored (head_object b) target (some b.nextId) ∧
    head_object (restore_s3_state_version b target false).2 = some b.nextId ∧
    b.nextId ≠ target ∧
    ((restore_s3_state_version b target false).2.versions.head?.map
        (·.content)) = some c ∧
    (restore_s3_state_version (restore_s3_state_version b target false).2
        target false).1 = .restored (some b.nextId) target (some (b.nextId + 1)) ∧
    head_object (restore_s3_state_version
        (restore_s3_state_version b target false).2 target false).2 =
        some (b.nextId + 1) ∧
    b.nextId + 1 ≠ target ∧ b.nextId + 1 ≠ b.nextId ∧
    ((restore_s3_state_version (restore_s3_state_version b target false).2
        target false).2.versions.head?.map (·.content)) = some c := by
  have hlt : target < b.nextId := target_lt_nextId hwf hget
  have hid1 : b.nextId ≠ target := Nat.ne_of_gt hlt
  have h1 := restore_step hget hne
  set b1 := put_object b c with hb1
  have hhead1 : head_object b1 = some b.nextId := head_object_put b c
  have hne1 : head_object b1 ≠ some target := by
    rw [hhead1]; intro h; exact hid1 (Option.some.inj h)
  have hget1 : get_object_version b1 target = some c := by
    rw [hb1, get_object_version_put c hid1]; exact hget
  have h2 := restore_step hget1 hne1
  have hnext1 : b1.nextId = b.nextId + 1 := rfl
  refine ⟨by rw [h1], by rw [h1]; exact hhead1, hid1, ?_, ?_, ?_, ?_, ?_, ?_⟩
  · rw [h1]; rfl
  · rw [h1, h2, hhead1, hnext1]
  · rw [h1, h2]
    simp only [head_object_put, hnext1]
  · exact Nat.ne_of_gt (Nat.lt_succ_of_lt hlt)
  · exact Nat.succ_ne_self b.nextId
  · rw [h1, h2]; rfl

/-- C1 witness: a concrete two-version store currently at version 1,
restored twice to version 0. -/
theorem restore_content_idempotent_version_fresh_witness :
    (restore_s3_state_version ⟨[⟨1, [7]⟩, ⟨0, [5]⟩], 2⟩ 0 false).1 =
        .restored (head_object ⟨[⟨1, [7]⟩, ⟨0, [5]⟩], 2⟩) 0 (some 2) ∧
    head_object (restore_s3_state_version
        ⟨[⟨1, [7]⟩, ⟨0, [5]⟩], 2⟩ 0 false).2 = some 2 ∧
    (2 : Nat) ≠ 0 ∧
    ((restore_s3_state_version ⟨[⟨1, [7]⟩, ⟨0, [5]⟩], 2⟩ 0
        false).2.versions.head?.map (·.content)) = some [5] ∧
    (restore_s3_state_version (restore_s3_state_version
        ⟨[⟨1, [7]⟩, ⟨0, [5]⟩], 2⟩ 0 false).2 0 false).1 =
        .restored (some 2) 0 (some 3) ∧
    head_object (restore_s3_state_version (restore_s3_state_version
        ⟨[⟨1, [7]⟩, ⟨0, [5]⟩], 2⟩ 0 false).2 0 false).2 = some 3 ∧
    (3 : Nat) ≠ 0 ∧ (3 : Nat) ≠ 2 ∧
    ((restore_s3_state_version (restore_s3_state_version
        ⟨[⟨1, [7]⟩, ⟨0, [5]⟩], 2⟩ 0 false).2 0 false).2.versions.head?.map
        (·.content)) = some [5] :=
  restore_content_idempotent_version_fresh ⟨[⟨1, [7]⟩, ⟨0, [5]⟩], 2⟩ 0 [5]
    (by decide) (by decide) (by decide)

/-- C2: when the store's current version id equals the target, the restore
returns `already_current` and leaves the store untouched, for either value
of the dry-run flag. -/
theorem restore_already_current (b : S3Bucket) (target : Nat) (dry_run : Bool)
    (h : head_object b = some target) :
    restore_s3_state_version b target dry_run = (.alreadyCurrent target, b) := by
  unfold restore_s3_state_version
  rw [if_pos h]

/-- C2 witness: a one-version store already at the target version, checked
with the dry-run flag both set and unset. -/
theorem restore_already_current_witness :
    restore_s3_state_version ⟨[⟨0, [5]⟩], 1⟩ 0 true =
        (.alreadyCurrent 0, ⟨[⟨0, [5]⟩], 1⟩) ∧
    restore_s3_state_version ⟨[⟨0, [5]⟩], 1⟩ 0 false =
        (.alreadyCurrent 0, ⟨[⟨0, [5]⟩], 1⟩) :=
  ⟨restore_already_current ⟨[⟨0, [5]⟩], 1⟩ 0 true (by decide),
   restore_already_current ⟨[⟨0, [5]⟩], 1⟩ 0 false (by decide)⟩

/-- C3: `run_terraform_apply` never reaches the apply phase when init or
plan exits non-zero (returning `init_failed` / `plan_failed` instead), the
plan artifact is deleted after a successful apply, and a dry-run pass with
init and plan succeeding stops before apply and deletes the plan artifact. -/
theorem run_terraform_apply_phase_order (env : TfEnv) (d a : Bool) :
    (env.initExit ≠ 0 →
      (run_terraform_apply env d a).1 = .init_failed ∧
      TfEvent.applyRun ∉ (run_terraform_apply env d a).2) ∧
    (env.initExit = 0 → env.planExit ≠ 0 →
      (run_terraform_apply env d a).1 = .plan_failed ∧
      TfEvent.applyRun ∉ (run_terraform_apply env d a).2) ∧
    ((run_terraform_apply env d a).1 = .applied →
      TfEvent.deletePlanFile ∈ (run_terraform_apply env d a).2) ∧
    (d = true → env.initExit = 0 → env.planExit = 0 →
      (run_terraform_apply env d a).1 = .dry_run ∧
      TfEvent.deletePlanFile ∈ (run_terraform_apply env d a).2 ∧
      TfEvent.applyRun ∉ (run_terraform_apply env d a).2) := by
  by_cases hi : env.initExit = 0 <;> by_cases hp : env.planExit = 0 <;>
    cases d <;> by_cases ha : env.applyExit = 0 <;>
    simp [run_terraform_apply, hi, hp, ha]

/-- C3 witness: an environment whose plan phase fails (apply not reached),
one whose phases all succeed (plan file deleted after apply), and a
dry-run over a succeeding environment (stops at plan, deletes the file). -/
theorem run_terraform_apply_phase_order_witness :
    ((run_terraform_apply ⟨0, 1, 0⟩ false false).1 = .plan_failed ∧
      TfEvent.applyRun ∉ (run_terraform_apply ⟨0, 1, 0⟩ false false).2) ∧
    TfEvent.deletePlanFile ∈ (run_terraform_apply ⟨0, 0, 0⟩ false true).2 ∧
    ((run_terraform_apply ⟨0, 0, 0⟩ true false).1 = .dry_run ∧
      TfEvent.deletePlanFile ∈ (run_terraform_apply ⟨0, 0, 0⟩ true false).2 ∧
      TfEvent.applyRun ∉ (run_terraform_apply ⟨0, 0, 0⟩ true false).2) :=
  ⟨(run_terraform_apply_phase_order ⟨0, 1, 0⟩ false false).2.1 (by decide)
      (by decide),
   (run_terraform_apply_phase_order ⟨0, 0, 0⟩ false true).2.2.1 (by decide),
   (run_terraform_apply_phase_order ⟨0, 0, 0⟩ true false).2.2.2 (by decide)
      (by decide) (by decide)⟩

/-- Sample transport for the rate-limit witness: one 429 with a reset time
of 5, then a 200. -/
def sampleResp : Nat → HttpResponse :=
  fun i => if i = 0 then ⟨429, some 5⟩ else ⟨200, none⟩

/-- C5: `_make_request` issues at most 3 attempts; a non-429 response is
returned immediately; each 429 triggers one sleep of
`max(reset - now + 1, 1)` (so the client wakes no earlier than the reset
time plus a one-second margin) before the retry; and when all three
attempts return 429 the third, still-429 response is returned as-is. -/
theorem make_request_rate_limit (resp : Nat → HttpResponse) (now : Int) :
    ((resp 0).status ≠ 429 → make_request resp now = (resp 0, 1, [])) ∧
    ((resp 0).status = 429 → (resp 1).status ≠ 429 →
      make_request resp now = (resp 1, 2, [rate_limit_wait (resp 0) now])) ∧
    ((resp 0).status = 429 → (resp 1).status = 429 → (resp 2).status ≠ 429 →
      make_request resp now = (resp 2, 3,
        [rate_limit_wait (resp 0) now,
         rate_limit_wait (resp 1) (now + rate_limit_wait (resp 0) now)])) ∧
    ((∀ i < 3, (resp i).status = 429) →
      make_request resp now = (resp 2, 3,
        [rate_limit_wait (resp 0) now,
         rate_limit_wait (resp 1) (now + rate_limit_wait (resp 0) now),
         rate_limit_wait (resp 2) (now + rate_limit_wait (resp 0) now +
           rate_limit_wait (resp 1) (now + rate_limit_wait (resp 0) now))])) ∧
    (∀ r : HttpResponse, ∀ t : Int,
      1 ≤ rate_limit_wait r t ∧
      (r.rateLimitReset.getD (t + 60)) + 1 ≤ t + rate_limit_wait r t) := by
  refine ⟨?_, ?_, ?_, ?_, ?_⟩
  · intro h0
    simp [make_request, make_request_loop, h0]
  · intro h0 h1
    simp [make_request, make_request_loop, h0, h1]
  · intro h0 h1 h2
    simp [make_request, make_request_loop, h0, h1, h2]
  · intro h
    have h0 := h 0 (by norm_num)
    have h1 := h 1 (by norm_num)
    have h2 := h 2 (by norm_num)
    simp [make_request, make_request_loop, h0, h1, h2]
  · intro r t
    unfold rate_limit_wait
    constructor
    · exact le_max_right _ _
    · have := le_max_left (r.rateLimitReset.getD (t + 60) - t + 1) 1
      linarith

/-- C5 witness: a transport answering 429 (reset time 5) then 200, at
time 0: the client retries once after the rate-limit sleep and returns
the 200 response. -/
theorem make_request_rate_limit_witness :
    make_request sampleResp 0 =
      (sampleResp 1, 2, [rate_limit_wait (sampleResp 0) 0]) :=
  (make_request_rate_limit sampleResp 0).2.1 (by decide) (by decide)

/-! ## C7: CSV row counting -/

/-- The rows `count_csv_rows` actually counts: non-empty rows whose first
field neither starts with `#` nor equals `email`. -/
def csv_row_counted (row : List String) : Bool :=
  match row with
  | [] => false
  | f :: _ => decide (¬ str_startswith f "#" ∧ f ≠ "email")

/-- The exclusion rule as the claim words it: a row is skipped when its
first field is empty, starts with `#`, or equals `email`. -/
def claim_csv_row_counted (row : List String) : Bool :=
  decide (¬ (row.headD "" = "" ∨ str_startswith (row.headD "") "#" ∨
    row.headD "" = "email"))

def claim_count_csv_rows (rows : List (List String)) : Nat :=
  (rows.filter claim_csv_row_counted).length

theorem csv_count_step_eq (n : Nat) (row : List String) :
    csv_count_step n row = n + (if csv_row_counted row then 1 else 0) := by
  cases row with
  | nil => simp [csv_count_step, csv_row_counted]
  | cons f rest =>
      simp only [csv_count_step, csv_row_counted, decide_eq_true_eq]
      split_ifs <;> omega

theorem count_csv_rows_foldl (rows : List (List String)) (n : Nat) :
    rows.foldl csv_count_step n = n + (rows.filter csv_row_counted).length := by
  induction rows generalizing n with
  | nil => simp
  | cons r rs ih =>
      rw [List.foldl_cons, ih, csv_count_step_eq, List.filter_cons]
      by_cases h : csv_row_counted r
      · simp [h]
        omega
      · simp [h]

/-- C7 counterexample: the row `,x` — an empty first field followed by a
data field — is counted by `count_csv_rows` (Python: `['', 'x']` is
truthy, `''` neither starts with `#` nor equals `'email'`), but the
claimed exclusion rule skips every row with an empty first field. -/
theorem count_csv_rows_empty_first_field_counterexample :
    count_csv_rows [["", "x"]] = 1 ∧ claim_count_csv_rows [["", "x"]] = 0 :=
  ⟨by decide, by decide⟩

/-- C7 amended: `count_csv_rows` excludes exactly the empty rows (blank
lines, which `csv.reader` parses to no fields), the rows whose first
field starts with `#`, and the rows whose first field equals `email`; a
row with an empty first field but further fields is counted.  On the
claim's 5-row CSV (1 header + 1 comment + 3 data rows) it returns 3. -/
theorem count_csv_rows_spec (rows : List (List String)) :
    count_csv_rows rows = (rows.filter csv_row_counted).length ∧
    count_csv_rows
      [["email", "first_name", "last_name"], ["# a comment"],
       ["alice@example.com", "Alice", "A"], ["bob@example.com", "Bob", "B"],
       ["carol@example.com", "Carol", "C"]] = 3 := by
  refine ⟨?_, by decide⟩
  unfold count_csv_rows
  rw [count_csv_rows_foldl]
  omega

/-! ## C9: user export CSV layout -/

/-- The header row `csv.DictWriter.writeheader()` emits for
`export_fieldnames`. -/
def users_csv_header : String :=
  "email,first_name,last_name,login,status,department,title,manager_email,groups,custom_profile_attributes"

/-- A sample exported user for the layout counterexample. -/
def sampleUserRow : UserRow :=
  ⟨"alice@example.com", "Alice", "A", "alice@example.com", "ACTIVE", "Eng",
   "", "", "", ""⟩

/-- C9 counterexample: in the file `export_users_to_csv` writes, the header
row is the FIRST line (its unique occurrence is at index 0) and is not a
`#` line, so the `#`-prefixed comment lines cannot precede it — they
follow it (`writeheader()` runs before the three `f.write` comment
lines). -/
theorem export_users_csv_header_first_counterexample :
    (export_users_to_csv_lines "demo" "2025-01-01T00:00:00Z"
      [sampleUserRow]).indexOf users_csv_header = 0 ∧
    (export_users_to_csv_lines "demo" "2025-01-01T00:00:00Z"
      [sampleUserRow]).count users_csv_header = 1 ∧
    str_startswith users_csv_header "#" = false := by
  refine ⟨by decide, by decide, by decide⟩

/-- C9 amended: the CSV written by `export_users_to_csv` starts with the
header row `email,first_name,...`, which is FOLLOWED by the three
`#`-prefixed comment lines (org, date, count), followed by one data row
per exported user. -/
theorem export_users_csv_layout (org_name export_date : String)
    (rows : List UserRow) :
    export_users_to_csv_lines org_name export_date rows =
      users_csv_header
        :: ("# Exported from Okta org: " ++ org_name)
        :: ("# Export date: " ++ export_date)
        :: ("# Total users: " ++ toString rows.length)
        :: rows.map (fun r => csv_line r.fields) ∧
    str_startswith ("# Exported from Okta org: " ++ org_name) "#" = true ∧
    str_startswith ("# Export date: " ++ export_date) "#" = true ∧
    str_startswith ("# Total users: " ++ toString rows.length) "#" = true ∧
    (rows.map (fun r => csv_line r.fields)).length = rows.length := by
  refine ⟨rfl, rfl, rfl, rfl, List.length_map _ _⟩

/-! ## C6: importer exit codes -/

/-- Target org for the exit-code counterexample: group `G` and user
`a@x.com` both resolve, but every group-assignment PUT fails with a 500. -/
def failingPutOrg : MemOrg :=
  ⟨[("a@x.com", "u1")], [("G", "g1")], fun _ _ => 500⟩

/-- C6 counterexample: a memberships import in which the one attempted
group-assignment call fails (`assignments_failed = 1`, an API error)
still exits 0 — `main` ignores the stats `import_memberships` returns. -/
theorem memberships_api_error_exit_zero_counterexample :
    (import_memberships failingPutOrg [("G", ["a@x.com"])] false).1 =
      ⟨1, 0, 1, 0, 0, 1⟩ ∧
    copy_memberships_import_main failingPutOrg [("G", ["a@x.com"])] false = 0 := by
  refine ⟨by decide, rfl⟩

/-- C6 amended: the grants importer exits non-zero exactly when its API
error count is non-zero — the missing (skipped) tally never influences
the exit code — while the memberships importer always exits 0, even when
assignment calls fail. -/
theorem importer_exit_codes (orgG : GrantOrg) (grants : List GrantRecord)
    (excl : List String) (d : Bool) (orgM : MemOrg)
    (mems : List (String × List String)) (dM : Bool) :
    (import_grants_exit (import_grants orgG grants excl d).1 = 0 ↔
      (import_grants orgG grants excl d).1.errors = 0) ∧
    (∀ r : GrantResults, ∀ s : Nat,
      import_grants_exit { r with skipped := s } = import_grants_exit r) ∧
    copy_memberships_import_main orgM mems dM = 0 := by
  refine ⟨?_, fun r s => rfl, rfl⟩
  unfold import_grants_exit
  split_ifs with h <;> simp [h]

/-! ## C4: dry-run invariant -/

theorem import_grant_step_dry_calls (org : GrantOrg) (excl : List String)
    (g : GrantRecord) (acc : GrantResults × List ApiCall) :
    (import_grant_step org excl true g acc).2 = acc.2 := by
  obtain ⟨res, calls⟩ := acc
  unfold import_grant_step
  by_cases hex : g.target_app_name ∈ excl
  · simp [hex]
  · simp only [hex, if_false]
    cases org.bundle_name_to_id.lookup g.bundle_name with
    | none => rfl
    | some bid =>
        cases resolve_principal org g.principal_type g.principal_name with
        | none => rfl
        | some pid => simp [create_grant]

theorem import_grants_dry_calls (org : GrantOrg) (excl : List String) :
    ∀ (grants : List GrantRecord) (acc : GrantResults × List ApiCall),
      (grants.foldl (fun a g => import_grant_step org excl true g a) acc).2 =
        acc.2 := by
  intro grants
  induction grants with
  | nil => intro acc; rfl
  | cons g gs ih =>
      intro acc
      rw [List.foldl_cons, ih, import_grant_step_dry_calls]

theorem import_member_step_dry_calls (org : MemOrg) (gid : String)
    (email : String) (acc : MemStats × List ApiCall) :
    (import_member_step org gid true email acc).2 = acc.2 := by
  obtain ⟨st, calls⟩ := acc
  unfold import_member_step
  cases org.users_by_email.lookup (str_lower email) with
  | none => rfl
  | some uid => rfl

theorem import_members_dry_calls (org : MemOrg) (gid : String) :
    ∀ (emails : List String) (acc : MemStats × List ApiCall),
      (emails.foldl (fun a e => import_member_step org gid true e a) acc).2 =
        acc.2 := by
  intro emails
  induction emails with
  | nil => intro acc; rfl
  | cons e es ih =>
      intro acc
      rw [List.foldl_cons, ih, import_member_step_dry_calls]

theorem import_memberships_dry_calls (org : MemOrg) :
    ∀ (mems : List (String × List String)) (acc : MemStats × List ApiCall),
      (mems.foldl
        (fun acc entry =>
          match org.groups_by_name.lookup entry.1 with
          | none =>
              ({ acc.1 with groups_missing := acc.1.groups_missing + 1 }, acc.2)
          | some group_id =>
              entry.2.foldl (fun a e => import_member_step org group_id true e a)
                ({ acc.1 with groups_found := acc.1.groups_found + 1 }, acc.2))
        acc).2 = acc.2 := by
  intro mems
  induction mems with
  | nil => intro acc; rfl
  | cons m ms ih =>
      intro acc
      rw [List.foldl_cons]
      cases hg : org.groups_by_name.lookup m.1 with
      | none => rw [ih]
      | some gid => rw [ih, import_members_dry_calls]

theorem import_grants_dry_wet_aux (org : GrantOrg) (excl : List String)
    (hok : ∀ b p ty, http_ok (org.grantPostStatus b p ty) = true) :
    ∀ (grants : List GrantRecord) (res : GrantResults) (c1 c2 : List ApiCall),
      (∀ g ∈ grants, (org.bundle_name_to_id.lookup g.bundle_name).isSome ∧
        (resolve_principal org g.principal_type g.principal_name).isSome) →
      (grants.foldl (fun a g => import_grant_step org excl true g a)
        (res, c1)).1 =
      (grants.foldl (fun a g => import_grant_step org excl false g a)
        (res, c2)).1 := by
  intro grants
  induction grants with
  | nil => intro res c1 c2 _; rfl
  | cons g gs ih =>
      intro res c1 c2 hres
      have hg := hres g (List.mem_cons_self g gs)
      obtain ⟨bid, hbid⟩ := Option.isSome_iff_exists.mp hg.1
      obtain ⟨pid, hpid⟩ := Option.isSome_iff_exists.mp hg.2
      have hgs := fun x hx => hres x (List.mem_cons_of_mem _ hx)
      simp only [List.foldl_cons]
      by_cases hex : g.target_app_name ∈ excl
      · simp only [import_grant_step, hex, if_true]
        exact ih _ _ _ hgs
      · simp only [import_grant_step, hex, if_false,
          hbid, hpid, create_grant, hok bid pid g.principal_type, if_true]
        exact ih _ _ _ hgs

/-- Resolution-side agreement between two membership tallies: the
group-found/missing and user-matched/missing counters coincide. -/
def mem_res_eq (s1 s2 : MemStats) : Prop :=
  s1.groups_found = s2.groups_found ∧ s1.groups_missing = s2.groups_missing ∧
  s1.users_matched = s2.users_matched ∧ s1.users_missing = s2.users_missing

theorem import_members_dry_wet_aux (org : MemOrg) (gid : String) :
    ∀ (emails : List String) (s1 s2 : MemStats) (c1 c2 : List ApiCall),
      mem_res_eq s1 s2 →
      mem_res_eq
        (emails.foldl (fun a e => import_member_step org gid true e a)
          (s1, c1)).1
        (emails.foldl (fun a e => import_member_step org gid false e a)
          (s2, c2)).1 := by
  intro emails
  induction emails with
  | nil => intro s1 s2 c1 c2 h; exact h
  | cons e es ih =>
      intro s1 s2 c1 c2 h
      obtain ⟨h1, h2, h3, h4⟩ := h
      simp only [List.foldl_cons, import_member_step]
      cases hu : org.users_by_email.lookup (str_lower e) with
      | none => exact ih _ _ _ _ ⟨h1, h2, h3, by simp [h4]⟩
      | some uid =>
          by_cases hp : org.putStatus gid uid = 204 <;>
            simp only [hp, if_true, Bool.false_eq_true, if_false] <;>
            exact ih _ _ _ _ ⟨h1, h2, by simp [h3], h4⟩

theorem import_memberships_dry_wet_aux (org : MemOrg) :
    ∀ (mems : List (String × List String)) (s1 s2 : MemStats)
      (c1 c2 : List ApiCall),
      mem_res_eq s1 s2 →
      mem_res_eq
        (mems.foldl
          (fun acc entry =>
            match org.groups_by_name.lookup entry.1 with
            | none =>
                ({ acc.1 with groups_missing := acc.1.groups_missing + 1 },
                  acc.2)
            | some group_id =>
                entry.2.foldl
                  (fun a e => import_member_step org group_id true e a)
                  ({ acc.1 with groups_found := acc.1.groups_found + 1 }, acc.2))
          (s1, c1)).1
        (mems.foldl
          (fun acc entry =>
            match org.groups_by_name.lookup entry.1 with
            | none =>
                ({ acc.1 with groups_missing := acc.1.groups_missing + 1 },
                  acc.2)
            | some group_id =>
                entry.2.foldl
                  (fun a e => import_member_step org group_id false e a)
                  ({ acc.1 with groups_found := acc.1.groups_found + 1 }, acc.2))
          (s2, c2)).1 := by
  intro mems
  induction mems with
  | nil => intro s1 s2 c1 c2 h; exact h
  | cons m ms ih =>
      intro s1 s2 c1 c2 h
      obtain ⟨h1, h2, h3, h4⟩ := h
      simp only [List.foldl_cons]
      cases hg : org.groups_by_name.lookup m.1 with
      | none => exact ih _ _ _ _ ⟨h1, by simp [h2], h3, h4⟩
      | some gid =>
          exact ih _ _ _ _
            (import_members_dry_wet_aux org gid m.2 _ _ _ _
              ⟨by simp [h1], h2, h3, h4⟩)

/-- Target org for the dry-run counterexample: group `G` and user
`a@x.com` both resolve and the assignment PUT succeeds (204). -/
def okPutOrg : MemOrg :=
  ⟨[("a@x.com", "u1")], [("G", "g1")], fun _ _ => 204⟩

/-- C4 counterexample: a dry memberships run issues zero mutating calls,
but its summary stats are NOT equal to those of the non-dry run in which
every principal resolves and the assignment succeeds: the dry run leaves
`assignments_made = 0` while the real run counts `assignments_made = 1`. -/
theorem dry_run_summary_counterexample :
    (import_memberships okPutOrg [("G", ["a@x.com"])] true).2 = [] ∧
    (import_memberships okPutOrg [("G", ["a@x.com"])] true).1 ≠
      (import_memberships okPutOrg [("G", ["a@x.com"])] false).1 :=
  ⟨by decide, by decide⟩

/-- C4 amended: with the dry-run flag set, the grants importer, the
memberships importer and the state restore issue zero mutating calls
(no grant POST, no assignment PUT, no store write); the grants importer's
summary equals the non-dry-run one whenever every bundle and principal
resolves and every grant POST succeeds; the memberships importer's
resolution counters (groups found/missing, users matched/missing) equal
the non-dry-run ones, while its `assignments_made`/`assignments_failed`
counters are only populated outside dry-run. -/
theorem dry_run_invariant (orgG : GrantOrg) (grants : List GrantRecord)
    (excl : List String) (orgM : MemOrg) (mems : List (String × List String))
    (b : S3Bucket) (t : Nat) :
    (import_grants orgG grants excl true).2 = [] ∧
    (import_memberships orgM mems true).2 = [] ∧
    (restore_s3_state_version b t true).2 = b ∧
    ((∀ bi p ty, http_ok (orgG.grantPostStatus bi p ty) = true) →
      (∀ g ∈ grants, (orgG.bundle_name_to_id.lookup g.bundle_name).isSome ∧
        (resolve_principal orgG g.principal_type g.principal_name).isSome) →
      (import_grants orgG grants excl true).1 =
        (import_grants orgG grants excl false).1) ∧
    mem_res_eq (import_memberships orgM mems true).1
      (import_memberships orgM mems false).1 := by
  refine ⟨?_, ?_, ?_, ?_, ?_⟩
  · exact import_grants_dry_calls orgG excl grants _
  · exact import_memberships_dry_calls orgM mems _
  · by_cases h : head_object b = some t
    · simp [restore_s3_state_version, h]
    · simp [restore_s3_state_version, h]
  · intro hok hres
    exact import_grants_dry_wet_aux orgG excl hok grants _ _ _ hres
  · exact import_memberships_dry_wet_aux orgM mems _ _ _ _
      ⟨rfl, rfl, rfl, rfl⟩

/-- Target org for the dry-run witness: bundle `B1` and group `G`
resolve and the grant POST returns 200. -/
def allResolveOrg : GrantOrg :=
  ⟨[("B1", "b1")], [("G", "g1")], [], [], fun _ _ _ => 200⟩

/-- C4 witness: on a one-grant export that fully resolves against
`allResolveOrg` with an always-succeeding POST, the dry-run summary
equals the non-dry-run one. -/
theorem dry_run_invariant_witness :
    (import_grants allResolveOrg [⟨"B1", "App", "G", "GROUP"⟩] [] true).1 =
      (import_grants allResolveOrg [⟨"B1", "App", "G", "GROUP"⟩] [] false).1 :=
  (dry_run_invariant allResolveOrg [⟨"B1", "App", "G", "GROUP"⟩] []
      ⟨[], [], fun _ _ => 204⟩ [] ⟨[], 0⟩ 0).2.2.2.1
    (fun _ _ _ => rfl) (by decide)

/-! ## C8 and C10: manifest structure -/

theorem get_file_info_none {hash : List Nat → String}
    {fs : String → Option FileData} {filename : String} {k : Option String}
    (h : fs filename = none) : get_file_info hash fs filename k = none := by
  simp [get_file_info, h]

theorem get_file_info_file {hash : List Nat → String}
    {fs : String → Option FileData} {filename : String} {k : Option String}
    {info : FileInfo} (h : get_file_info hash fs filename k = some info) :
    info.file = filename := by
  unfold get_file_info at h
  cases hfs : fs filename with
  | none => rw [hfs] at h; exact absurd h (by simp)
  | some fd =>
      rw [hfs] at h
      cases Option.some.inj h
      rfl

theorem get_file_info_sha {hash : List Nat → String}
    {fs : String → Option FileData} {filename : String} {k : Option String}
    {info : FileInfo} (h : get_file_info hash fs filename k = some info) :
    ∃ fd, fs filename = some fd ∧ info.sha256 = hash fd.bytes := by
  unfold get_file_info at h
  cases hfs : fs filename with
  | none => rw [hfs] at h; exact absurd h (by simp)
  | some fd =>
      rw [hfs] at h
      cases Option.some.inj h
      exact ⟨fd, rfl, rfl⟩

theorem manifest_loop_spec (hash : List Nat → String)
    (fs : String → Option FileData) (rn : String → String) (tag : String) :
    ∀ (entries : List (String × Option String)) (acc : ManifestAcc),
      (manifest_files_loop hash fs rn tag entries acc).files =
        acc.files ++ entries.filterMap (fun e => get_file_info hash fs e.1 e.2) ∧
      (manifest_files_loop hash fs rn tag entries acc).resources =
        acc.resources ++ entries.filterMap (fun e =>
          (get_file_info hash fs e.1 e.2).map (fun info =>
            (rn e.1, ⟨info.count.getD 0, e.1, tag⟩))) ∧
      (manifest_files_loop hash fs rn tag entries acc).total_files =
        acc.total_files +
          (entries.filterMap (fun e => get_file_info hash fs e.1 e.2)).length ∧
      (manifest_files_loop hash fs rn tag entries acc).total_resources =
        acc.total_resources +
          ((entries.filterMap (fun e => get_file_info hash fs e.1 e.2)).map
            (fun i => i.count.getD 0)).sum := by
  intro entries
  induction entries with
  | nil => intro acc; simp [manifest_files_loop]
  | cons e es ih =>
      intro acc
      unfold manifest_files_loop at ih ⊢
      rw [List.foldl_cons]
      cases hinfo : get_file_info hash fs e.1 e.2 with
      | none =>
          have hs : manifest_file_step hash fs rn tag acc e = acc := by
            simp [manifest_file_step, hinfo]
          rw [hs]
          obtain ⟨i1, i2, i3, i4⟩ := ih acc
          refine ⟨?_, ?_, ?_, ?_⟩ <;>
            simp [i1, i2, i3, i4, List.filterMap_cons, hinfo]
      | some info =>
          have hs : manifest_file_step hash fs rn tag acc e =
              ⟨acc.files ++ [info],
               acc.resources ++ [(rn e.1, ⟨info.count.getD 0, e.1, tag⟩)],
               acc.total_files + 1,
               acc.total_resources + info.count.getD 0⟩ := by
            simp [manifest_file_step, hinfo]
          rw [hs]
          obtain ⟨i1, i2, i3, i4⟩ := ih
            ⟨acc.files ++ [info],
             acc.resources ++ [(rn e.1, ⟨info.count.getD 0, e.1, tag⟩)],
             acc.total_files + 1,
             acc.total_resources + info.count.getD 0⟩
          refine ⟨?_, ?_, ?_, ?_⟩
          · rw [i1]; simp [List.filterMap_cons, hinfo]
          · rw [i2]; simp [List.filterMap_cons, hinfo]
          · rw [i3]; simp [List.filterMap_cons, hinfo]; omega
          · rw [i4]; simp [List.filterMap_cons, hinfo]; omega

theorem filterMap_file_names (hash : List Nat → String)
    (fs : String → Option FileData) :
    ∀ entries : List (String × Option String),
      ((entries.filterMap (fun e => get_file_info hash fs e.1 e.2)).map
        (·.file)) = (entries.filter (fun e => (fs e.1).isSome)).map (·.1) := by
  intro entries
  induction entries with
  | nil => rfl
  | cons e es ih =>
      cases hfs : fs e.1 with
      | none =>
          rw [List.filterMap_cons, get_file_info_none hfs, List.filter_cons]
          simp [hfs, ih]
      | some fd =>
          rw [List.filterMap_cons]
          cases hinfo : get_file_info hash fs e.1 e.2 with
          | none => exact absurd hinfo (by simp [get_file_info, hfs])
          | some info =>
              rw [List.filter_cons]
              simp [hfs, List.map_cons, ih, get_file_info_file hinfo]

/-- C8: the manifest built by `create_manifest` lists exactly the files
of the fixed expected list (`backup_files` then `oig_files`) that are
present in the backup directory — absent expected files are silently
omitted — and every listed descriptor's `sha256` is the hash of that
file's bytes as found at build time. -/
theorem create_manifest_files_spec (hash : List Nat → String)
    (fs : String → Option FileData)
    (sid org cat cby sch bdir : String) (sb sk sv : Option String) :
    (create_manifest hash fs sid org cat cby sch bdir sb sk sv).files.map
        (·.file) =
      ((backup_files ++ oig_files).filter (fun e => (fs e.1).isSome)).map
        (·.1) ∧
    ∀ fi ∈ (create_manifest hash fs sid org cat cby sch bdir sb sk sv).files,
      ∃ fd, fs fi.file = some fd ∧ fi.sha256 = hash fd.bytes := by
  have l1 := manifest_loop_spec hash fs main_resource_name "export"
    backup_files ⟨[], [], 0, 0⟩
  have l2 := manifest_loop_spec hash fs oig_resource_name "terraform"
    oig_files (manifest_files_loop hash fs main_resource_name "export"
      backup_files ⟨[], [], 0, 0⟩)
  have hfiles :
      (create_manifest hash fs sid org cat cby sch bdir sb sk sv).files =
        (backup_files ++ oig_files).filterMap
          (fun e => get_file_info hash fs e.1 e.2) := by
    show (manifest_files_loop hash fs oig_resource_name "terraform" oig_files
      (manifest_files_loop hash fs main_resource_name "export" backup_files
        ⟨[], [], 0, 0⟩)).files = _
    rw [l2.1, l1.1, List.filterMap_append]
    simp
  constructor
  · rw [hfiles, filterMap_file_names]
  · intro fi hfi
    rw [hfiles] at hfi
    rcases List.mem_filterMap.mp hfi with ⟨e, _, hinfo⟩
    rcases get_file_info_sha hinfo with ⟨fd, hfd, hsha⟩
    exact ⟨fd, by rw [get_file_info_file hinfo]; exact hfd, hsha⟩

/-- Stand-in content hash for the manifest witnesses. -/
def whash : List Nat → String := fun bytes => toString bytes.length

/-- A backup directory holding only `users.csv` (two bytes, one data
row). -/
def wfs : String → Option FileData := fun n =>
  if n = "users.csv" then
    some ⟨[65, 66], "2025-01-01T00:00:00Z", [["alice@x.com", "A"]], Json.null⟩
  else none

/-- The descriptor `create_manifest` produces for `users.csv` under
`whash`/`wfs`. -/
def wFileInfo : FileInfo :=
  ⟨"users.csv", 2, "2025-01-01T00:00:00Z", "2", some 1⟩

/-- C8 witness: in the concrete one-file backup directory `wfs`, the
listed `users.csv` descriptor carries the hash of the file's bytes. -/
theorem create_manifest_files_spec_witness :
    ∃ fd, wfs wFileInfo.file = some fd ∧ wFileInfo.sha256 = whash fd.bytes :=
  (create_manifest_files_spec whash wfs "s" "o" "t" "u" "manual" "d"
      none none none).2 wFileInfo (by decide)

theorem files_resources_correspond (hash : List Nat → String)
    (fs : String → Option FileData) (rn : String → String) (tag : String) :
    ∀ (entries : List (String × Option String)) (fi : FileInfo),
      fi ∈ entries.filterMap (fun e => get_file_info hash fs e.1 e.2) →
      (rn fi.file, (⟨fi.count.getD 0, fi.file, tag⟩ : ResourceEntry)) ∈
        entries.filterMap (fun e => (get_file_info hash fs e.1 e.2).map
          (fun info => (rn e.1, ⟨info.count.getD 0, e.1, tag⟩))) := by
  intro entries fi hfi
  rcases List.mem_filterMap.mp hfi with ⟨e, he, hinfo⟩
  refine List.mem_filterMap.mpr ⟨e, he, ?_⟩
  rw [hinfo, Option.map_some', get_file_info_file hinfo]

/-- C10: every manifest `create_manifest` builds is internally consistent:
`summary.total_files` is the number of `files` entries,
`summary.total_resources` is the sum of their counts (0 when absent), and
each `files` entry has a `resources` key whose `count` and `file` fields
match the descriptor. -/
theorem create_manifest_summary_invariant (hash : List Nat → String)
    (fs : String → Option FileData)
    (sid org cat cby sch bdir : String) (sb sk sv : Option String) :
    (create_manifest hash fs sid org cat cby sch bdir sb sk sv).summary.total_files =
      (create_manifest hash fs sid org cat cby sch bdir sb sk sv).files.length ∧
    (create_manifest hash fs sid org cat cby sch bdir sb sk sv).summary.total_resources =
      ((create_manifest hash fs sid org cat cby sch bdir sb sk sv).files.map
        (fun i => i.count.getD 0)).sum ∧
    ∀ fi ∈ (create_manifest hash fs sid org cat cby sch bdir sb sk sv).files,
      ∃ key re,
        (key, re) ∈
          (create_manifest hash fs sid org cat cby sch bdir sb sk sv).resources ∧
        re.file = fi.file ∧ re.count = fi.count.getD 0 := by
  obtain ⟨f1, r1, t1, s1⟩ := manifest_loop_spec hash fs main_resource_name
    "export" backup_files ⟨[], [], 0, 0⟩
  obtain ⟨f2, r2, t2, s2⟩ := manifest_loop_spec hash fs oig_resource_name
    "terraform" oig_files (manifest_files_loop hash fs main_resource_name
      "export" backup_files ⟨[], [], 0, 0⟩)
  have hfiles :
      (create_manifest hash fs sid org cat cby sch bdir sb sk sv).files =
        backup_files.filterMap (fun e => get_file_info hash fs e.1 e.2) ++
        oig_files.filterMap (fun e => get_file_info hash fs e.1 e.2) := by
    show (manifest_files_loop hash fs oig_resource_name "terraform" oig_files
      (manifest_files_loop hash fs main_resource_name "export" backup_files
        ⟨[], [], 0, 0⟩)).files = _
    rw [f2, f1]
    simp
  have hres :
      (create_manifest hash fs sid org cat cby sch bdir sb sk sv).resources =
        backup_files.filterMap (fun e => (get_file_info hash fs e.1 e.2).map
          (fun info => (main_resource_name e.1,
            ⟨info.count.getD 0, e.1, "export"⟩))) ++
        oig_files.filterMap (fun e => (get_file_info hash fs e.1 e.2).map
          (fun info => (oig_resource_name e.1,
            ⟨info.count.getD 0, e.1, "terraform"⟩))) := by
    show (manifest_files_loop hash fs oig_resource_name "terraform" oig_files
      (manifest_files_loop hash fs main_resource_name "export" backup_files
        ⟨[], [], 0, 0⟩)).resources = _
    rw [r2, r1]
    simp
  refine ⟨?_, ?_, ?_⟩
  · show (manifest_files_loop hash fs oig_resource_name "terraform" oig_files
      (manifest_files_loop hash fs main_resource_name "export" backup_files
        ⟨[], [], 0, 0⟩)).total_files = _
    rw [hfiles, t2, t1]
    simp
  · show (manifest_files_loop hash fs oig_resource_name "terraform" oig_files
      (manifest_files_loop hash fs main_resource_name "export" backup_files
        ⟨[], [], 0, 0⟩)).total_resources = _
    rw [hfiles, s2, s1]
    simp
  · intro fi hfi
    rw [hfiles] at hfi
    rcases List.mem_append.mp hfi with h | h
    · refine ⟨main_resource_name fi.file, ⟨fi.count.getD 0, fi.file, "export"⟩,
        ?_, rfl, rfl⟩
      rw [hres]
      exact List.mem_append_left _
        (files_resources_correspond hash fs main_resource_name "export"
          backup_files fi h)
    · refine ⟨oig_resource_name fi.file,
        ⟨fi.count.getD 0, fi.file, "terraform"⟩, ?_, rfl, rfl⟩
      rw [hres]
      exact List.mem_append_right _
        (files_resources_correspond hash fs oig_resource_name "terraform"
          oig_files fi h)

/-- C10 witness: in the concrete backup directory `wfs`, the `users.csv`
descriptor has a matching `resources` entry. -/
theorem create_manifest_summary_invariant_witness :
    ∃ key re,
      (key, re) ∈
        (create_manifest whash wfs "s" "o" "t" "u" "manual" "d"
          none none none).resources ∧
      re.file = wFileInfo.file ∧ re.count = wFileInfo.count.getD 0 :=
  (create_manifest_summary_invariant whash wfs "s" "o" "t" "u" "manual" "d"
      none none none).2.2 wFileInfo (by decide)

end OktaDemo
